import Mathlib

/-!
Verification of the DOPA OS command-shell core (`src/codespaces_os.py`).

The Python source is shallowly embedded: the shared output buffer
`output_lines` becomes an explicit `List String` threaded through the
operations, the persisted `state` dict becomes an explicit structure, and
the string methods used by the source (`str.splitlines`, `str.split`,
`str.strip`, `str.lower`, `sep.join`) are implemented as executable
functions on character lists mirroring Python's semantics for the
characters this program manipulates.
-/

/-- Python whitespace characters recognised by `str.strip()` / `str.split()`
(ASCII subset: space, tab, newline, carriage return, vertical tab, form feed). -/
def isPySpace (c : Char) : Bool :=
  c == ' ' || c == '\t' || c == '\n' || c == '\r' || c == '\x0b' || c == '\x0c'

/-- `str.strip()`: drop leading and trailing whitespace. -/
def pyStrip (s : String) : String :=
  String.mk (((s.data.dropWhile isPySpace).reverse.dropWhile isPySpace).reverse)

/-- ASCII lowering of one character, as `str.lower()` does on the ASCII
command names this program uses. -/
def pyCharLower (c : Char) : Char :=
  if 'A' ≤ c ∧ c ≤ 'Z' then Char.ofNat (c.toNat + 32) else c

/-- `str.lower()` on ASCII text. -/
def pyLower (s : String) : String :=
  String.mk (s.data.map pyCharLower)

/-- Helper for `pySplit`: split on whitespace runs, discarding empty pieces,
accumulating the current token in reverse. -/
def pySplitAux : List Char → List Char → List (List Char)
  | [], [] => []
  | [], acc => [acc.reverse]
  | c :: rest, acc =>
    if isPySpace c then
      if acc.isEmpty then pySplitAux rest []
      else acc.reverse :: pySplitAux rest []
    else pySplitAux rest (c :: acc)

/-- `str.split()` with no argument: split on whitespace runs, no empty tokens. -/
def pySplit (s : String) : List String :=
  (pySplitAux s.data []).map String.mk

/-- Helper for `splitlines`: Python line splitting over `\r\n`, `\n` and `\r`
boundaries (the terminators occurring in this program's strings); a final
unterminated segment is emitted only when non-empty, and a trailing
terminator does not produce a trailing empty line. -/
def splitlinesAux : List Char → List Char → List (List Char)
  | [], [] => []
  | [], acc => [acc.reverse]
  | '\r' :: '\n' :: rest, acc => acc.reverse :: splitlinesAux rest []
  | '\n' :: rest, acc => acc.reverse :: splitlinesAux rest []
  | '\r' :: rest, acc => acc.reverse :: splitlinesAux rest []
  | c :: rest, acc => splitlinesAux rest (c :: acc)

/-- `str.splitlines()` as used by `push_output`. -/
def splitlines (s : String) : List String :=
  (splitlinesAux s.data []).map String.mk

/-- `sep.join(xs)`: concatenate with `sep` between consecutive elements. -/
def pyJoin (sep : String) : List String → String
  | [] => ""
  | [l] => l
  | l :: x :: rest => l ++ sep ++ pyJoin sep (x :: rest)

/-- Substring test on character lists (used only to state properties about
the textual results; not part of the source). -/
def listContainsSub (needle : List Char) : List Char → Bool
  | [] => needle.isEmpty
  | c :: t => needle.isPrefixOf (c :: t) || listContainsSub needle t

/-- Substring test on strings. -/
def strContains (hay needle : String) : Bool :=
  listContainsSub needle.data hay.data

/-- Prefix test on strings (used only to state properties about results). -/
def strStartsWith (s p : String) : Bool :=
  p.data.isPrefixOf s.data

/-! ## OutputLog (`output_lines`, `push_output`, `get_output_text`,
`get_output_seq`, `cmd_clear`)

The global `output_lines` list (guarded by `output_lock` in the source; the
lock serialises the operations, which the explicit state passing models) is
threaded as an explicit `List String`. -/

/-- `OUTPUT_MAX_LINES = 2000` from the source configuration. -/
def OUTPUT_MAX_LINES : Nat := 2000

/-- `push_output(text)`: split `text` into lines, append each, then keep only
the last `OUTPUT_MAX_LINES` entries (`output_lines[-OUTPUT_MAX_LINES:]`). -/
def push_output (buf : List String) (text : String) : List String :=
  if (buf ++ splitlines text).length > OUTPUT_MAX_LINES then
    (buf ++ splitlines text).drop ((buf ++ splitlines text).length - OUTPUT_MAX_LINES)
  else buf ++ splitlines text

/-- `get_output_text()`: `"\n".join(output_lines)`. -/
def get_output_text (buf : List String) : String :=
  pyJoin "\n" buf

/-- `get_output_seq()`: `len(output_lines)`. -/
def get_output_seq (buf : List String) : Nat :=
  buf.length

/-- `cmd_clear(args)`: empties the output buffer and returns `""`. -/
def cmd_clear (buf : List String) : List String × String :=
  ([], "")

/-- Fold a list of `push_output` calls over the buffer (a sequence of appends). -/
def pushMany (buf : List String) (ts : List String) : List String :=
  ts.foldl push_output buf

/-- A mutation of the output log occurring between two polls: either an
append (`push_output`) or the `clear` command emptying the buffer. -/
inductive LogOp
  | push (text : String)
  | clear
deriving DecidableEq

/-- Apply one log operation. -/
def applyOp (buf : List String) : LogOp → List String
  | LogOp.push t => push_output buf t
  | LogOp.clear => (cmd_clear buf).1

/-- Apply a sequence of log operations. -/
def applyOps (buf : List String) (ops : List LogOp) : List String :=
  ops.foldl applyOp buf

/-- Splitting a string at each newline character, keeping empty segments
(`"" ↦ [""]`). Used only to state how many lines the joined snapshot has;
not part of the source. -/
def splitOnNlAux : List Char → List Char → List (List Char)
  | [], acc => [acc.reverse]
  | c :: rest, acc =>
    if c = '\n' then acc.reverse :: splitOnNlAux rest []
    else splitOnNlAux rest (c :: acc)

/-- String wrapper for `splitOnNlAux`. -/
def splitOnNl (s : String) : List String :=
  (splitOnNlAux s.data []).map String.mk

/-! ## Command registry and dispatcher (`COMMANDS`, `handle_command_line`)

The handlers registered in `COMMANDS` perform filesystem / network / clock
I/O, so their outcomes are abstracted as an oracle
`handlers : String → List String → Except String String`: `.ok s` models the
handler returning the string `s`, `.error e` models the handler raising an
exception whose rendering is `e` (the `try`/`except` in the dispatcher is the
only thing that distinguishes the two).  The terminal-only interactive
commands (`write`, `append`, `edit`, `notes`) read from stdin, so their
results are abstracted as the oracle `interactive`.  `cmd_help` and
`cmd_help_one` are pure and embedded directly from the source. -/

/-- Origin tag of a dispatched line (`from_where` in the source). -/
inductive Origin
  | terminal
  | web
deriving DecidableEq

/-- Python `dict` lookup on an association list (first binding wins). -/
def lookupStr (al : List (String × String)) (k : String) : Option String :=
  match al with
  | [] => none
  | (a, v) :: rest => if a = k then some v else lookupStr rest k

/-- The keys of the `COMMANDS` dict, transcribed from the source.  Note that
`runbg`, `write`, `writefile`, `append`, `appendfile`, `edit` and `notes`
are absent even though the help text lists them. -/
def COMMANDS_keys : List String :=
  ["help", "ls", "cat", "head", "tail", "preview", "wc", "tree", "du",
   "mkdir", "touch", "rm", "trash", "restore", "mv", "cp", "zip", "unzip",
   "calc", "chat", "search", "alias", "unalias", "history", "clear",
   "sysinfo", "uptime", "time", "date", "notify", "updatesim", "ping",
   "notesadd"]

/-- The command names intercepted by the terminal-only interactive block of
`handle_command_line`. -/
def INTERACTIVE_CMDS : List String :=
  ["write", "append", "edit", "notes"]

/-- `cmd_help(args)`: the fixed command summary text. -/
def cmd_help (args : List String) : String :=
  "DOPA OS commands: (type 'help <cmd>' for details)\n  ls cat head tail preview wc tree du mkdir rm touch mv cp open edit\n  write append writefile appendfile\n  cd pwd search calc chat notes notesadd history clear alias unalias\n  arcade tictactoe hangman number\n  startmenu uptime sysinfo time date ps runbg notify updatesim trash restore\n  zip unzip ping which whoami echo mkdir rmdir chmod du tree\n  help\n"

/-- The `docs` dict inside `cmd_help_one`, transcribed from the source. -/
def helpDocs : List (String × String) :=
  [("search", "search <term> [path] - search file contents recursively (workspace only)"),
   ("edit", "edit <file> - simple inline terminal editor (use terminal UI)"),
   ("writefile", "writefile <file> <content> - write content (web friendly)"),
   ("appendfile", "appendfile <file> <content> - append content (web friendly)"),
   ("notesadd", "notesadd <text> - append to notes.txt"),
   ("runbg", "runbg <seconds> <message> - simulate a background job that will post message after seconds"),
   ("trash", "trash <file> - move file to .dopa_trash"),
   ("restore", "restore <name> - restore file from .dopa_trash"),
   ("updatesim", "updatesim <pkg> - simulate updating/installing a package")]

/-- `cmd_help_one(args)`: per-command help, `docs.get(c, default)`. -/
def cmd_help_one (args : List String) : String :=
  match args with
  | [] => cmd_help []
  | a :: _ =>
    match lookupStr helpDocs (pyLower a) with
    | some d => d
    | none => "No detailed help for " ++ pyLower a

/-- The environment a dispatch runs in: the alias map read from `state`, the
oracle for the `COMMANDS` handlers, and the oracle for the terminal-only
interactive commands. -/
structure DispatchEnv where
  aliases : List (String × String)
  handlers : String → List String → Except String String
  interactive : String → List String → String

/-- The alias-expansion step of `handle_command_line`: if the first token is
a registered alias, splice in its expansion followed by the remaining tokens
and re-tokenize; performed at most once. -/
def expandAlias (aliases : List (String × String)) (parts : List String) :
    List String :=
  match parts with
  | [] => []
  | p :: rest =>
    match lookupStr aliases p with
    | none => p :: rest
    | some expanded =>
      pySplit (expanded ++ (if rest.length > 0 then " " ++ pyJoin " " rest else ""))

/-- The shared tail of `handle_command_line` (after the terminal-only block):
`help` special case, `COMMANDS` lookup with the `try`/`except` guard, and the
unknown-command fallback.  A handler exception (`.error e`) is converted to
the textual result `Error executing <cmd>: <e>`. -/
def resolveCommon (env : DispatchEnv) (cmd : String) (args : List String) :
    Except String String :=
  if cmd = "help" then
    Except.ok (if args.length > 0 then cmd_help_one args else cmd_help args)
  else if cmd ∈ COMMANDS_keys then
    match env.handlers cmd args with
    | Except.ok s => Except.ok s
    | Except.error e => Except.ok ("Error executing " ++ cmd ++ ": " ++ e)
  else
    Except.ok ("Unknown command: " ++ cmd ++ ". Type 'help'.")

/-- Dispatch of the tokenized (already alias-expanded) line.  With origin
`terminal` the interactive commands and `exit` are intercepted first; with
origin `web` the line goes straight to the common resolution.  An empty
token list models the `IndexError` the source would raise at `parts[0]`
(reachable only through an alias whose expansion is blank). -/
def dispatchParts (env : DispatchEnv) (parts : List String)
    (from_where : Origin) : Except String String :=
  match parts with
  | [] => Except.error "IndexError: list index out of range"
  | cmd0 :: args =>
    match from_where with
    | Origin.terminal =>
      if pyLower cmd0 ∈ INTERACTIVE_CMDS then
        Except.ok (env.interactive (pyLower cmd0) args)
      else if pyLower cmd0 = "exit" then
        Except.ok "__EXIT__"
      else resolveCommon env (pyLower cmd0) args
    | Origin.web => resolveCommon env (pyLower cmd0) args

/-- `handle_command_line(raw, from_where)`: strip, reject empty lines with an
empty result, tokenize, expand aliases once, dispatch.  The `Except` layer
records whether a Python exception escapes the function (`.error`) or a
textual result is returned (`.ok`). -/
def handle_command_line (env : DispatchEnv) (raw0 : String)
    (from_where : Origin) : Except String String :=
  if pyStrip raw0 = "" then Except.ok ""
  else dispatchParts env (expandAlias env.aliases (pySplit (pyStrip raw0))) from_where

/-! ## HTTP front-end (`Handler.do_POST`, `Handler.do_GET`) -/

/-- Everything `do_POST` produces on the `/command` path: the output log
after the handler ran, and the JSON response fields `status`, `out`, `seq`. -/
structure PostResult where
  log : List String
  status : String
  out : String
  seq : Nat
deriving DecidableEq

/-- `Handler.do_POST` on `/command`: a malformed body (or one without a
`cmd` key) is modelled as `none` and yields the empty command; the echo line
`> <cmd>` is always pushed, then the result (with the `__EXIT__` sentinel
replaced for web callers). -/
def do_POST (env : DispatchEnv) (body : Option String) (log : List String) :
    Except String PostResult :=
  match handle_command_line env (body.getD "") Origin.web with
  | Except.error e => Except.error e
  | Except.ok out =>
    if out = "__EXIT__" then
      Except.ok
        ⟨push_output (push_output log ("> " ++ body.getD ""))
            "Exit requested (ignored from web).",
         "ok", "Exit is terminal-only.",
         get_output_seq (push_output (push_output log ("> " ++ body.getD ""))
            "Exit requested (ignored from web).")⟩
    else
      Except.ok
        ⟨push_output (push_output log ("> " ++ body.getD "")) out,
         "ok", out,
         get_output_seq (push_output (push_output log ("> " ++ body.getD "")) out)⟩

/-- A `do_GET` outcome: one of the two handled endpoints (with status code,
content type and body) or a fall-through to static file serving, whose body
depends on the filesystem and stays abstract. -/
inductive GetResponse
  | handled (code : Nat) (contentType : String) (body : String)
  | staticFile (path : String)
deriving DecidableEq

/-- `json.dumps({"seq": n})`. -/
def jsonSeq (n : Nat) : String :=
  "\x7b\"seq\": " ++ Nat.repr n ++ "\x7d"

/-- Modelled from the spec: the JSON body the specification's table promises
for `GET /status` (the source has no such route; this definition exists only
to compare the promised behaviour with the code's). -/
def spec_status_response (n : Nat) : String :=
  "\x7b\"status\": \"ready\", \"seq\": " ++ Nat.repr n ++ "\x7d"

/-- `Handler.do_GET`: `/output` and `/pollseq` are handled from the log; any
other path (including `/status`) falls through to `SimpleHTTPRequestHandler`
static file serving. -/
def do_GET (log : List String) (path : String) : GetResponse :=
  if path = "/output" then
    GetResponse.handled 200 "text/plain; charset=utf-8" (get_output_text log)
  else if path = "/pollseq" then
    GetResponse.handled 200 "application/json" (jsonSeq (get_output_seq log))
  else GetResponse.staticFile path

/-! ## Persisted state (`state`, `load_state`) -/

/-- The `state` dict: aliases, history, process start time, and the job
registry (job info abstracted as a string). -/
structure PyState where
  aliases : List (String × String)
  history : List String
  started_at : Nat
  jobs : List (String × String)
deriving DecidableEq

/-- The module-level default `state` (empty aliases / history / jobs,
`started_at = time.time()`). -/
def default_state (now : Nat) : PyState :=
  ⟨[], [], now, []⟩

/-- What a successful `json.load` of the state file can contribute: each key
is optional, and `state.update(s)` keeps the default for absent keys. -/
structure StateJson where
  aliases : Option (List (String × String))
  history : Option (List String)
  started_at : Option Nat
  jobs : Option (List (String × String))

/-- The condition of the state file on disk: absent, present but not valid
JSON (so `json.load` raises), or valid. -/
inductive StateFile
  | missing
  | malformed
  | valid (s : StateJson)

/-- `load_state()`: `os.path.exists` guard plus a `try`/`except Exception:
pass` around parsing, so a missing or malformed file leaves the default
`state` untouched; a valid file updates the present keys. -/
def load_state (now : Nat) (file : StateFile) : PyState :=
  match file with
  | StateFile.missing => default_state now
  | StateFile.malformed => default_state now
  | StateFile.valid s =>
    ⟨s.aliases.getD [], s.history.getD [], s.started_at.getD now, s.jobs.getD []⟩

/-! ## Concrete oracles used by closed witness / counterexample statements -/

/-- An oracle where every registered handler returns the empty string. -/
def okHandlers : String → List String → Except String String :=
  fun _ _ => Except.ok ""

/-- An oracle where every registered handler raises an exception rendered
as `boom`. -/
def boomHandlers : String → List String → Except String String :=
  fun _ _ => Except.error "boom"

/-- An oracle where every interactive command returns the empty string. -/
def noInteractive : String → List String → String :=
  fun _ _ => ""

-- Basic length law for `push_output`.
theorem push_output_length (buf : List String) (t : String) :
    (push_output buf t).length
      = min (buf.length + (splitlines t).length) OUTPUT_MAX_LINES := by
  unfold push_output
  split
  · next h =>
    rw [List.length_drop]
    rw [List.length_append] at h ⊢
    omega
  · next h =>
    rw [List.length_append] at h ⊢
    omega

-- Under capacity, a push never shrinks the buffer; the result is always
-- within capacity.
theorem pushMany_length_bounds (ts : List String) (buf : List String)
    (h : buf.length ≤ OUTPUT_MAX_LINES) :
    buf.length ≤ (pushMany buf ts).length
      ∧ (pushMany buf ts).length ≤ OUTPUT_MAX_LINES := by
  induction ts generalizing buf with
  | nil => exact ⟨Nat.le_refl _, h⟩
  | cons t ts ih =>
    have hp := push_output_length buf t
    have h1 : buf.length ≤ (push_output buf t).length := by omega
    have h2 : (push_output buf t).length ≤ OUTPUT_MAX_LINES := by omega
    have := ih (push_output buf t) h2
    refine ⟨Nat.le_trans h1 this.1, this.2⟩

-- If a strictly-under-capacity buffer has the same length after a train of
-- pushes, none of the pushes appended anything and the buffer is unchanged.
theorem pushMany_eq_of_length_eq (ts : List String) (buf : List String)
    (h : buf.length < OUTPUT_MAX_LINES)
    (hs : (pushMany buf ts).length = buf.length) :
    pushMany buf ts = buf := by
  induction ts generalizing buf with
  | nil => rfl
  | cons t ts ih =>
    have hstep : pushMany buf (t :: ts) = pushMany (push_output buf t) ts := rfl
    rw [hstep] at hs ⊢
    have hp := push_output_length buf t
    have hbounds := pushMany_length_bounds ts (push_output buf t) (by omega)
    have hlen : (push_output buf t).length = buf.length := by omega
    have hk : (splitlines t).length = 0 := by omega
    have hnil : splitlines t = [] := List.length_eq_zero.mp hk
    have hpush : push_output buf t = buf := by
      unfold push_output
      rw [hnil, List.append_nil]
      rw [if_neg (by omega)]
    rw [hpush] at hs ⊢
    exact ih buf h hs

-- Splitting a newline-free chunk: the accumulator just grows.
theorem splitOnNlAux_append (cs rest acc : List Char) (h : '\n' ∉ cs) :
    splitOnNlAux (cs ++ rest) acc = splitOnNlAux rest (cs.reverse ++ acc) := by
  induction cs generalizing acc with
  | nil => simp
  | cons c cs ih =>
    rw [List.mem_cons, not_or] at h
    rw [List.cons_append, splitOnNlAux, if_neg (fun hc => h.1 hc.symm), ih _ h.2]
    simp [List.append_assoc]

-- Splitting the newline-join of a non-empty list of newline-free lines
-- recovers exactly the lines.
theorem splitOnNl_pyJoin (buf : List String) (hne : buf ≠ [])
    (h : ∀ l ∈ buf, '\n' ∉ l.data) :
    splitOnNl (pyJoin "\n" buf) = buf := by
  induction buf with
  | nil => exact absurd rfl hne
  | cons a rest ih =>
    cases rest with
    | nil =>
      have ha : '\n' ∉ a.data := h a (List.mem_cons_self a [])
      show splitOnNl a = [a]
      unfold splitOnNl
      have haux := splitOnNlAux_append a.data [] [] ha
      rw [List.append_nil] at haux
      rw [haux]
      simp [splitOnNlAux]
    | cons b rest2 =>
      have ha : '\n' ∉ a.data := h a (by simp)
      have hrest : ∀ l ∈ b :: rest2, '\n' ∉ l.data := fun l hl => h l (by simp [hl])
      have hjoin : pyJoin "\n" (a :: b :: rest2)
          = a ++ "\n" ++ pyJoin "\n" (b :: rest2) := rfl
      have hdata : (a ++ "\n" ++ pyJoin "\n" (b :: rest2)).data
          = a.data ++ ('\n' :: (pyJoin "\n" (b :: rest2)).data) := by
        simp [String.data_append]
      unfold splitOnNl
      rw [hjoin, hdata, splitOnNlAux_append a.data _ [] ha, List.append_nil]
      rw [splitOnNlAux, if_pos rfl]
      simp only [List.map_cons, List.reverse_reverse]
      rw [show String.mk a.data = a from rfl]
      have htail := ih (by simp) hrest
      unfold splitOnNl at htail
      rw [htail]

-- Every registered command name is already stripped, tokenizes to itself,
-- is already lower-case, and is non-empty.
theorem commands_keys_wf :
    COMMANDS_keys.all (fun c =>
      (pyStrip c == c) && (pySplit c == [c]) && (pyLower c == c) && (c != ""))
      = true := by
  decide

-- Pushing the empty text onto a within-capacity buffer is a no-op
-- (`"".splitlines() == []`).
theorem push_output_empty (buf : List String)
    (h : buf.length ≤ OUTPUT_MAX_LINES) :
    push_output buf "" = buf := by
  unfold push_output
  rw [show splitlines "" = [] from rfl, List.append_nil, if_neg (by omega)]

-- Stripping an all-whitespace string yields the empty string.
theorem pyStrip_all_space (s : String) (h : s.data.all isPySpace = true) :
    pyStrip s = "" := by
  unfold pyStrip
  rw [List.all_eq_true] at h
  have h1 : s.data.dropWhile isPySpace = [] :=
    List.dropWhile_eq_nil_iff.mpr fun x hx => h x hx
  rw [h1]
  rfl

/-! ## Claim theorems -/

/-- C1 is false as stated: with the log at its 2000-line capacity, one more
`push_output` of a single line leaves `get_output_seq` at 2000 instead of
increasing it by the one appended line — the counter saturates, so values
are reused after eviction. -/
theorem C1_counterexample :
    get_output_seq (push_output (List.replicate 2000 "a") "b")
      ≠ get_output_seq (List.replicate 2000 "a") + (splitlines "b").length := by
  simp only [get_output_seq]
  have h := push_output_length (List.replicate 2000 "a") "b"
  rw [show splitlines "b" = ["b"] from rfl, List.length_replicate] at h
  rw [h, List.length_replicate, show splitlines "b" = ["b"] from rfl]
  decide

/-- C1 (amended): from any state within the 2000-line capacity,
`push_output` moves `get_output_seq` to
`min (previous + lines appended) 2000`; the value is non-decreasing, and it
increases by exactly the number of appended lines precisely while the total
stays within capacity — past capacity it saturates (and is reused). -/
theorem C1_seq_saturates (buf : List String) (text : String)
    (h : buf.length ≤ OUTPUT_MAX_LINES) :
    get_output_seq (push_output buf text)
        = min (get_output_seq buf + (splitlines text).length) OUTPUT_MAX_LINES
    ∧ get_output_seq buf ≤ get_output_seq (push_output buf text)
    ∧ (get_output_seq buf + (splitlines text).length ≤ OUTPUT_MAX_LINES →
        get_output_seq (push_output buf text)
          = get_output_seq buf + (splitlines text).length) := by
  simp only [get_output_seq]
  have hp := push_output_length buf text
  exact ⟨hp, by omega, fun _ => by omega⟩

/-- Witness for C1_seq_saturates: pushing the two-line text `x\ny` onto the
empty log moves the sequence from 0 to 2. -/
theorem C1_seq_saturates_witness :
    ([] : List String).length ≤ OUTPUT_MAX_LINES
    ∧ get_output_seq (push_output [] "x\ny")
        = min (get_output_seq [] + (splitlines "x\ny").length) OUTPUT_MAX_LINES :=
  ⟨by decide, (C1_seq_saturates [] "x\ny" (by decide)).1⟩

/-- C2 is false as stated: running the `clear` command and then pushing `b`
between two polls of the one-line log `["a"]` returns the sequence to its
old value 1 while the snapshot text changes from `a` to `b` — the log is
mutated without a net sequence-number change. -/
theorem C2_counterexample :
    get_output_seq (applyOps ["a"] [LogOp.clear, LogOp.push "b"])
      = get_output_seq ["a"]
    ∧ get_output_text (applyOps ["a"] [LogOp.clear, LogOp.push "b"])
      ≠ get_output_text ["a"] := by
  exact ⟨rfl, by decide⟩

/-- C2 (amended): if only `push_output` operations run between the two polls
and the log held strictly fewer than 2000 lines at the first poll, an
unchanged `get_output_seq` does imply the buffer — and hence the
`get_output_text` snapshot — is unchanged.  (At capacity, eviction defeats
this: see the C1 counterexample; and `clear` defeats it as above.) -/
theorem C2_unchanged_seq_push_only (buf : List String) (ts : List String)
    (h : buf.length < OUTPUT_MAX_LINES)
    (hseq : get_output_seq (pushMany buf ts) = get_output_seq buf) :
    pushMany buf ts = buf
    ∧ get_output_text (pushMany buf ts) = get_output_text buf := by
  have heq := pushMany_eq_of_length_eq ts buf h hseq
  exact ⟨heq, by rw [heq]⟩

/-- Witness for C2_unchanged_seq_push_only: a push of the empty text onto
`["a"]` keeps the sequence at 1 and the snapshot at `a`. -/
theorem C2_unchanged_seq_push_only_witness :
    (["a"] : List String).length < OUTPUT_MAX_LINES
    ∧ get_output_seq (pushMany ["a"] [""]) = get_output_seq ["a"]
    ∧ get_output_text (pushMany ["a"] [""]) = get_output_text ["a"] :=
  ⟨by decide, rfl, (C2_unchanged_seq_push_only ["a"] [""] (by decide) rfl).2⟩

/-- C10 (confirmed): `get_output_seq` is exactly the number of currently
retained lines — splitting the snapshot at its newline separators recovers
the retained lines, so the snapshot holds exactly `get_output_seq` lines —
it never exceeds the 2000-line capacity after any `push_output`, and the
`clear` command resets it to 0: the published sequence token is the buffer
length, not a persistent monotonic counter. -/
theorem C10_seq_is_buffer_length (buf : List String) (text : String)
    (hne : buf ≠ []) (hnl : ∀ l ∈ buf, '\n' ∉ l.data) :
    get_output_seq buf = buf.length
    ∧ get_output_seq (push_output buf text) ≤ OUTPUT_MAX_LINES
    ∧ get_output_seq (cmd_clear buf).1 = 0
    ∧ splitOnNl (get_output_text buf) = buf
    ∧ (splitOnNl (get_output_text buf)).length = get_output_seq buf := by
  have hsplit : splitOnNl (get_output_text buf) = buf := by
    simp only [get_output_text]
    exact splitOnNl_pyJoin buf hne hnl
  refine ⟨rfl, ?_, rfl, hsplit, by rw [hsplit]; rfl⟩
  have hp := push_output_length buf text
  simp only [get_output_seq]
  omega

/-- Witness for C10_seq_is_buffer_length at the one-line log `["a"]`. -/
theorem C10_seq_is_buffer_length_witness :
    ((["a"] : List String) ≠ [] ∧ ∀ l ∈ (["a"] : List String), '\n' ∉ l.data)
    ∧ splitOnNl (get_output_text ["a"]) = ["a"] :=
  ⟨⟨by decide, by decide⟩,
   (C10_seq_is_buffer_length ["a"] "b" (by decide) (by decide)).2.2.2.1⟩

set_option maxRecDepth 20000 in
/-- C3 (code bug): `runbg 1 done` does not resolve to a background-job
command — `runbg` is not registered in `COMMANDS`, so dispatch from either
origin returns the unknown-command result and no job is ever spawned — even
though the program's own help output lists `runbg` and its detailed help
describes exactly the claimed background-job behaviour. -/
theorem C3_runbg_unregistered
    (handlers : String → List String → Except String String)
    (interactive : String → List String → String) (o : Origin) :
    handle_command_line ⟨[], handlers, interactive⟩ "runbg 1 done" o
      = Except.ok "Unknown command: runbg. Type 'help'."
    ∧ cmd_help_one ["runbg"]
      = "runbg <seconds> <message> - simulate a background job that will post message after seconds"
    ∧ strContains (cmd_help []) "runbg" = true := by
  refine ⟨?_, rfl, by decide⟩
  cases o <;> rfl

/-- C5 (confirmed): alias expansion happens at most once per dispatch.  With
the cyclic aliases `a = b` and `b = a`, dispatching `a` (from either origin,
whatever the handlers do) terminates and yields the result of resolving the
command `b`, which is unregistered, hence the unknown-command result — no
infinite recursion. -/
theorem C5_alias_expansion_once
    (handlers : String → List String → Except String String)
    (interactive : String → List String → String) (o : Origin) :
    handle_command_line ⟨[("a", "b"), ("b", "a")], handlers, interactive⟩ "a" o
      = Except.ok "Unknown command: b. Type 'help'." := by
  cases o <;> rfl

/-- C6 is false as stated: dispatching the terminal-only command `write`
with origin `web` yields the generic unknown-command result, which contains
no "not available here" text. -/
theorem C6_counterexample :
    handle_command_line ⟨[], okHandlers, noInteractive⟩ "write f.txt" Origin.web
      = Except.ok "Unknown command: write. Type 'help'."
    ∧ strContains "Unknown command: write. Type 'help'." "not available here"
      = false :=
  ⟨rfl, by decide⟩

/-- C6 (amended): each of the terminal-only interactive command names
(`write`, `append`, `edit`, `notes`) dispatched with origin `web` never
reaches interactive input (the result is a fixed string, independent of the
interactive oracle), but the fixed result is the unknown-command message,
not a dedicated "not available here" message. -/
theorem C6_web_interactive_unknown
    (handlers : String → List String → Except String String)
    (interactive : String → List String → String) (c : String)
    (hc : c ∈ INTERACTIVE_CMDS) :
    handle_command_line ⟨[], handlers, interactive⟩ c Origin.web
      = Except.ok ("Unknown command: " ++ c ++ ". Type 'help'.") := by
  simp only [INTERACTIVE_CMDS, List.mem_cons, List.not_mem_nil, or_false] at hc
  rcases hc with h | h | h | h <;> subst h <;> rfl

/-- Witness for C6_web_interactive_unknown at the command `write`. -/
theorem C6_web_interactive_unknown_witness :
    "write" ∈ INTERACTIVE_CMDS
    ∧ handle_command_line ⟨[], okHandlers, noInteractive⟩ "write" Origin.web
        = Except.ok ("Unknown command: " ++ "write" ++ ". Type 'help'.") :=
  ⟨by decide, C6_web_interactive_unknown okHandlers noInteractive "write" (by decide)⟩

/-- C7 is false only in its error format: a raising handler produces the
textual result `Error executing <cmd>: <description>`, which does not start
with the claimed `Error: ` prefix. -/
theorem C7_counterexample :
    handle_command_line ⟨[], boomHandlers, noInteractive⟩ "ls" Origin.web
      = Except.ok "Error executing ls: boom"
    ∧ strStartsWith "Error executing ls: boom" "Error: " = false :=
  ⟨rfl, by decide⟩

/-- C7 (amended): when any registered command's handler raises,
`handle_command_line` catches the exception and returns the textual result
`Error executing <cmd>: <description>` (rather than `Error: <description>`),
never propagating it; and dispatching the unregistered name `foobar`
returns, without raising, a normal textual result containing `foobar`. -/
theorem C7_handler_exception_caught
    (handlers : String → List String → Except String String)
    (interactive : String → List String → String) (c e : String)
    (hc : c ∈ COMMANDS_keys) (hh : c ≠ "help")
    (he : handlers c [] = Except.error e) :
    handle_command_line ⟨[], handlers, interactive⟩ c Origin.web
        = Except.ok ("Error executing " ++ c ++ ": " ++ e)
    ∧ handle_command_line ⟨[], handlers, interactive⟩ "foobar" Origin.web
        = Except.ok "Unknown command: foobar. Type 'help'."
    ∧ strContains "Unknown command: foobar. Type 'help'." "foobar" = true := by
  refine ⟨?_, rfl, by decide⟩
  have hall := commands_keys_wf
  rw [List.all_eq_true] at hall
  have hp := hall c hc
  simp only [Bool.and_eq_true, beq_iff_eq, bne_iff_ne, ne_eq] at hp
  obtain ⟨⟨⟨hstrip, hsplit⟩, hlower⟩, hne0⟩ := hp
  unfold handle_command_line
  rw [hstrip, if_neg hne0, hsplit]
  show dispatchParts _ (expandAlias [] [c]) Origin.web = _
  rw [show expandAlias [] [c] = [c] from rfl]
  show resolveCommon _ (pyLower c) [] = _
  rw [hlower]
  unfold resolveCommon
  rw [if_neg hh, if_pos hc]
  show (match handlers c [] with
    | Except.ok s => Except.ok s
    | Except.error e => Except.ok ("Error executing " ++ c ++ ": " ++ e))
      = Except.ok ("Error executing " ++ c ++ ": " ++ e)
  rw [he]

/-- Witness for C7_handler_exception_caught: the registered command `ls`
with a handler raising `boom`. -/
theorem C7_handler_exception_caught_witness :
    ("ls" ∈ COMMANDS_keys ∧ "ls" ≠ "help"
      ∧ boomHandlers "ls" [] = Except.error "boom")
    ∧ handle_command_line ⟨[], boomHandlers, noInteractive⟩ "ls" Origin.web
        = Except.ok ("Error executing " ++ "ls" ++ ": " ++ "boom") :=
  ⟨⟨by decide, by decide, rfl⟩,
   (C7_handler_exception_caught boomHandlers noInteractive "ls" "boom"
      (by decide) (by decide) rfl).1⟩

/-- C4 is false as stated: a malformed POST body is treated as the empty
command and the dispatch returns the empty result, but `do_POST`
unconditionally appends the echo line `> ` to the output log — one entry,
not zero. -/
theorem C4_counterexample :
    do_POST ⟨[], okHandlers, noInteractive⟩ none []
      = Except.ok ⟨["> "], "ok", "", 1⟩
    ∧ (["> "] : List String) ≠ [] :=
  ⟨rfl, by decide⟩

/-- C4 (amended): an empty or whitespace-only line dispatches to a no-op
with empty result, and the empty result contributes no log line
(`"".splitlines() == []`); but the web POST handler still unconditionally
appends the echo line `> ` for a malformed (empty-command) body, so exactly
the echo entry — and nothing else — is added to the log. -/
theorem C4_empty_command_echo_only (env : DispatchEnv) (s : String)
    (o : Origin) (log : List String) (hs : s.data.all isPySpace = true) :
    handle_command_line env s o = Except.ok ""
    ∧ do_POST env none log
        = Except.ok ⟨push_output log ("> " ++ ""), "ok", "",
            get_output_seq (push_output log ("> " ++ ""))⟩
    ∧ splitlines "" = [] := by
  have hb : (push_output log ("> " ++ "")).length ≤ OUTPUT_MAX_LINES := by
    have := push_output_length log ("> " ++ "")
    omega
  have hcollapse := push_output_empty (push_output log ("> " ++ "")) hb
  refine ⟨?_, ?_, rfl⟩
  · unfold handle_command_line
    rw [pyStrip_all_space s hs, if_pos rfl]
  · rw [show do_POST env none log
        = Except.ok ⟨push_output (push_output log ("> " ++ "")) "", "ok", "",
            get_output_seq (push_output (push_output log ("> " ++ "")) "")⟩
      from rfl, hcollapse]

/-- Witness for C4_empty_command_echo_only at the whitespace line `"  \t "`
and the empty log. -/
theorem C4_empty_command_echo_only_witness :
    ("  \t ".data.all isPySpace = true)
    ∧ handle_command_line ⟨[], okHandlers, noInteractive⟩ "  \t " Origin.terminal
        = Except.ok "" :=
  ⟨by decide,
   (C4_empty_command_echo_only ⟨[], okHandlers, noInteractive⟩ "  \t "
      Origin.terminal [] (by decide)).1⟩

/-- C8 is false as stated: `GET /status` is not handled by `do_GET` — it
falls through to static file serving instead of answering the promised
ready/seq JSON. -/
theorem C8_counterexample :
    do_GET [] "/status" = GetResponse.staticFile "/status"
    ∧ GetResponse.staticFile "/status"
        ≠ GetResponse.handled 200 "application/json" (spec_status_response 0) :=
  ⟨rfl, by decide⟩

/-- C8 (amended): there is no `/status` route (the path falls through to the
static file handler); the non-blocking sequence poll of the claim is
`GET /pollseq`, which answers immediately with the JSON `seq` read of the
current counter. -/
theorem C8_no_status_route (log : List String) :
    do_GET log "/status" = GetResponse.staticFile "/status"
    ∧ do_GET log "/pollseq"
        = GetResponse.handled 200 "application/json" (jsonSeq (get_output_seq log)) :=
  ⟨rfl, rfl⟩

/-- C9 (confirmed): `load_state` is total — modelled as a function, it never
raises — and both a missing and a malformed state file yield the default
state: empty aliases, history and jobs, so startup always succeeds. -/
theorem C9_load_state_defaults (now : Nat) :
    load_state now StateFile.missing = default_state now
    ∧ load_state now StateFile.malformed = default_state now
    ∧ (default_state now).aliases = []
    ∧ (default_state now).history = []
    ∧ (default_state now).jobs = [] :=
  ⟨rfl, rfl, rfl, rfl, rfl⟩
